import Mathlib

/-!
Shallow embedding of the MMM-Sonos node helper's resilient state-sync core
(file src/unnamed/part_000 of the repository).  Devices and timer handles are
modelled by numeric identifiers; asynchronous fetch results are modelled by
Option values (none = the fetch was rejected / timed out); the notifications
sent through sendSocketNotification in one call are collected in an explicit
record.  JavaScript truthiness quirks that matter to the claims (the use of
the logical-or operator for defaulting configured intervals, parseInt
producing NaN, a fulfilled currentTrack call returning null) are modelled
explicitly.
-/

namespace MMMSonos

/-- A track as delivered by the sonos library: metadata tuple plus the
device-reported URI.  Durations are in whole seconds. -/
structure Track where
  title : String
  artist : String
  album : String
  duration : Int
  uri : String
  deriving DecidableEq, Repr

/-- Per-group health record (field groupHealth of the module, one entry per
group ID): the stored device handle (null until subscription succeeds), the
last observed play state string, the consecutive-failure counter and the
last observed track/volume/mute values (null before first observation). -/
structure HealthRecord where
  device : Option Nat
  playState : String
  consecutiveFailures : Nat
  lastTrack : Option Track
  lastVolume : Option Int
  lastMuted : Option Bool
  deriving DecidableEq, Repr

/-- The health record installed by setListenersHybrid for every group. -/
def initHealth : HealthRecord :=
  { device := none
    playState := "unknown"
    consecutiveFailures := 0
    lastTrack := none
    lastVolume := none
    lastMuted := none }

/-- Settled results of the four concurrent fetches of one pollGroup cycle.
The outer Option is the allSettled status (none = rejected); for the track
fetch the inner Option reflects that a fulfilled currentTrack call may still
deliver null, which pollGroup also treats as nothing to compare. -/
structure PollResults where
  track : Option (Option Track)
  volume : Option Int
  muted : Option Bool
  state : Option String
  deriving DecidableEq, Repr

/-- The socket notifications sent during one pollGroup call, at most one per
field (none = no notification for that field in this cycle). -/
structure Emitted where
  track : Option Track
  volume : Option Int
  muted : Option Bool
  state : Option String
  deriving DecidableEq, Repr

/-- No notification sent for any field. -/
def noEmit : Emitted :=
  { track := none, volume := none, muted := none, state := none }

/-- Track comparison used by pollGroup: metadata tuple
(title, artist, album, duration); the URI is deliberately not compared. -/
def trackTupleEq (a b : Track) : Bool :=
  a.title == b.title && a.artist == b.artist &&
    a.album == b.album && a.duration == b.duration

/-- Result of one pollGroup cycle for one group: the updated health record,
the notifications sent, and whether triggerRediscovery was invoked. -/
structure PollOutcome where
  health : HealthRecord
  emitted : Emitted
  rediscover : Bool
  deriving DecidableEq, Repr

/-- The track block of pollGroup: runs only when the currentTrack fetch was
fulfilled with a non-null value; compares by metadata tuple and updates and
notifies only on change. -/
def trackStep (h : HealthRecord) (r : Option (Option Track)) :
    HealthRecord × Option Track :=
  match r with
  | some (some t) =>
    let changed :=
      match h.lastTrack with
      | none => true
      | some lt => !(trackTupleEq lt t)
    if changed then ({ h with lastTrack := some t }, some t) else (h, none)
  | _ => (h, none)

/-- The volume block of pollGroup: on a fulfilled getVolume fetch, update and
notify only when the value differs from the stored one. -/
def volumeStep (h : HealthRecord) (r : Option Int) :
    HealthRecord × Option Int :=
  match r with
  | some v =>
    if h.lastVolume == some v then (h, none)
    else ({ h with lastVolume := some v }, some v)
  | none => (h, none)

/-- The mute block of pollGroup: on a fulfilled getMuted fetch, update and
notify only when the value differs from the stored one. -/
def muteStep (h : HealthRecord) (r : Option Bool) :
    HealthRecord × Option Bool :=
  match r with
  | some b =>
    if h.lastMuted == some b then (h, none)
    else ({ h with lastMuted := some b }, some b)
  | none => (h, none)

/-- The play-state block of pollGroup: on a fulfilled getCurrentState fetch,
update and notify only when the state string differs from the stored one. -/
def stateStep (h : HealthRecord) (r : Option String) :
    HealthRecord × Option String :=
  match r with
  | some s =>
    if h.playState == s then (h, none)
    else ({ h with playState := s }, some s)
  | none => (h, none)

/-- One pollGroup cycle for one group (src/unnamed/part_000 lines 688-770):
if every fetch was rejected, increment consecutiveFailures, send nothing,
and invoke triggerRediscovery when the counter has reached maxFailures;
otherwise reset the counter to 0 and run the four per-field blocks in
source order. -/
def pollGroupStep (maxFailures : Nat) (h : HealthRecord) (r : PollResults) :
    PollOutcome :=
  let anySucceeded :=
    r.track.isSome || r.volume.isSome || r.muted.isSome || r.state.isSome
  if anySucceeded then
    let p1 := trackStep { h with consecutiveFailures := 0 } r.track
    let p2 := volumeStep p1.1 r.volume
    let p3 := muteStep p2.1 r.muted
    let p4 := stateStep p3.1 r.state
    { health := p4.1
      emitted := { track := p1.2, volume := p2.2, muted := p3.2, state := p4.2 }
      rediscover := false }
  else
    let h1 := { h with consecutiveFailures := h.consecutiveFailures + 1 }
    { health := h1
      emitted := noEmit
      rediscover := decide (h1.consecutiveFailures ≥ maxFailures) }

/-- Timeout configuration object; DEFAULT_TIMEOUTS is used when the config
carries none. -/
structure Timeouts where
  discovery : Nat
  subscribe : Nat
  apiCall : Nat
  getAllGroups : Nat
  deriving DecidableEq, Repr

/-- DEFAULT_TIMEOUTS of the helper. -/
def defaultTimeouts : Timeouts :=
  { discovery := 10000, subscribe := 5000, apiCall := 5000, getAllGroups := 10000 }

/-- The configuration fields of the helper that the verified operations read.
Optional numeric fields model JS properties that may be absent. -/
structure Config where
  timeouts : Option Timeouts
  pollingIntervalPlaying : Option Nat
  pollingIntervalIdle : Option Nat
  autoResubscribe : Bool
  subscriptionCheckInterval : Option Nat
  maxConsecutiveFailures : Option Nat
  deriving DecidableEq, Repr

/-- JavaScript logical-or defaulting as applied to an optional number: both a
missing property and the number 0 are falsy and fall back to the default. -/
def jsOr (v : Option Nat) (d : Nat) : Nat :=
  match v with
  | none => d
  | some n => if n == 0 then d else n

/-- Effective timeouts object: config.timeouts with DEFAULT_TIMEOUTS as the
logical-or fallback. -/
def effectiveTimeouts (cfg : Config) : Timeouts :=
  match cfg.timeouts with
  | some t => t
  | none => defaultTimeouts

/-- The mutable module-level fields of the node helper that the verified
operations touch.  Opaque JS objects (devices, group objects, timer handles,
DeviceSubscription entries) are identified by numbers; groups are identified
by their ID strings. -/
structure ModuleState where
  groupsById : List (String × Nat)
  groups : List String
  groupHealth : List (String × HealthRecord)
  subscribedDevices : List Nat
  pollTimeout : Option Nat
  subscriptionCheckTimer : Option Nat
  asyncDevice : Option Nat
  listenerSubscriptions : List Nat
  isRediscovering : Bool
  deriving DecidableEq, Repr

/-- isAnyGroupPlaying: some health record has playState equal to the string
playing. -/
def isAnyGroupPlaying (gh : List (String × HealthRecord)) : Bool :=
  gh.any (fun p => p.2.playState == "playing")

/-- getPollingInterval: the playing interval when any group is playing, the
idle interval otherwise, each defaulted with the JS logical-or (so a missing
or zero configured value becomes 15000 or 60000). -/
def getPollingInterval (cfg : Config) (gh : List (String × HealthRecord)) : Nat :=
  let playingInterval := jsOr cfg.pollingIntervalPlaying 15000
  let idleInterval := jsOr cfg.pollingIntervalIdle 60000
  if isAnyGroupPlaying gh then playingInterval else idleInterval

/-- Result of schedulePoll: the state with the fresh timer handle stored in
pollTimeout, and the delay passed to setTimeout. -/
structure ScheduleResult where
  state : ModuleState
  delay : Nat
  deriving DecidableEq, Repr

/-- schedulePoll: clear any existing timeout, compute the adaptive interval
and store the fresh timer handle as the in-flight marker. -/
def schedulePoll (cfg : Config) (s : ModuleState) (freshId : Nat) : ScheduleResult :=
  { state := { s with pollTimeout := some freshId }
    delay := getPollingInterval cfg s.groupHealth }

/-- The finally callback of a fired poll timer (the tail of schedulePoll):
reschedule the chain via schedulePoll only when the in-flight marker
pollTimeout is still non-null; the Bool records whether it rescheduled. -/
def pollCycleFinally (cfg : Config) (s : ModuleState) (freshId : Nat) :
    ModuleState × Bool :=
  if s.pollTimeout.isSome then ((schedulePoll cfg s freshId).state, true)
  else (s, false)

/-- Result of a triggerRediscovery call: the resulting module state and
whether the teardown body actually ran (false when the guard short-circuits). -/
structure TriggerResult where
  state : ModuleState
  teardownRan : Bool
  deriving DecidableEq, Repr

/-- triggerRediscovery (src/unnamed/part_000 lines 772-828): a guarded
transition into the Rediscovering state.  When isRediscovering is already
set it returns at once without touching anything; otherwise it sets the
marker, cancels both timers, detaches all device listeners, clears the
health store and group list, clears the stale DeviceSubscription entries and
the cached discovery handle, and schedules the delayed restart. -/
def triggerRediscovery (s : ModuleState) : TriggerResult :=
  if s.isRediscovering then { state := s, teardownRan := false }
  else
    { state :=
        { s with
          isRediscovering := true
          subscriptionCheckTimer := none
          pollTimeout := none
          subscribedDevices := []
          groupHealth := []
          groups := []
          listenerSubscriptions := []
          asyncDevice := none }
      teardownRan := true }

/-- The delayed callback scheduled at the end of triggerRediscovery: it
clears the isRediscovering marker (and then calls discoverGroups). -/
def rediscoveryRestart (s : ModuleState) : ModuleState :=
  { s with isRediscovering := false }

/-- startSubscriptionHealthCheck: returns without creating a timer unless
autoResubscribe is configured; otherwise (re)installs the interval timer. -/
def startSubscriptionHealthCheck (cfg : Config) (s : ModuleState) (freshId : Nat) :
    ModuleState :=
  if cfg.autoResubscribe then { s with subscriptionCheckTimer := some freshId }
  else s

/-- The renewal timeout of renewDeviceSubscriptions: the effective apiCall
timeout with one more logical-or fallback to 5000. -/
def renewTimeout (cfg : Config) : Nat :=
  let a := (effectiveTimeouts cfg).apiCall
  if a == 0 then 5000 else a

/-- renewDeviceSubscriptions, outcome view: look the device up among the
listener DeviceSubscription entries; if it is absent, trigger rediscovery;
otherwise run renewAllSubscriptions under the timeout, and trigger
rediscovery exactly when that fails or times out (renewOk is the
environment's verdict for the renewal call).  The returned Bool is whether
triggerRediscovery was invoked. -/
def renewDeviceSubscriptions (subs : List Nat) (renewOk : Nat → Bool) (d : Nat) :
    Bool :=
  if subs.contains d then !(renewOk d) else true

/-- What the subscription health check did for one group. -/
inductive GroupCheck
  | escalateMissing
  | renewal (device : Nat) (timeoutMs : Nat) (escalated : Bool)
  deriving DecidableEq, Repr

/-- One firing of the subscription health check timer: skip entirely when no
group is playing or no groups are tracked; otherwise, per group, escalate
directly to rediscovery when the health record or its device handle is
missing, and otherwise run renewDeviceSubscriptions on the stored handle
under the renewal timeout. -/
def subscriptionCheckTick (cfg : Config) (s : ModuleState) (renewOk : Nat → Bool) :
    List (String × GroupCheck) :=
  if !(isAnyGroupPlaying s.groupHealth) then []
  else if s.groups.isEmpty then []
  else
    s.groups.map (fun gid =>
      match (s.groupHealth.lookup gid).bind (fun h => h.device) with
      | none => (gid, GroupCheck.escalateMissing)
      | some d =>
        (gid, GroupCheck.renewal d (renewTimeout cfg)
          (renewDeviceSubscriptions s.listenerSubscriptions renewOk d)))

/-- The CurrentTrack push handler attached by attachEventHandlers: write the
received track into the health record and send the notification
unconditionally. -/
def onPushTrack (h : HealthRecord) (t : Track) : HealthRecord × Option Track :=
  ({ h with lastTrack := some t }, some t)

/-- The Volume push handler: write the received volume into the health
record and send the notification unconditionally. -/
def onPushVolume (h : HealthRecord) (v : Int) : HealthRecord × Option Int :=
  ({ h with lastVolume := some v }, some v)

/-- The Muted push handler: write the received flag into the health record
and send the notification unconditionally. -/
def onPushMuted (h : HealthRecord) (b : Bool) : HealthRecord × Option Bool :=
  ({ h with lastMuted := some b }, some b)

/-- The PlayState push handler: write the received state into the health
record and send the notification unconditionally. -/
def onPushState (h : HealthRecord) (st : String) : HealthRecord × Option String :=
  ({ h with playState := st }, some st)

/-- A JavaScript value arriving as the volume argument of the setVolume
socket notification: a number or a string. -/
inductive JSVal
  | num (n : Int)
  | str (s : String)
  deriving DecidableEq, Repr

/-- Numeric value of a list of decimal digit characters. -/
def digitsToNat (cs : List Char) : Nat :=
  cs.foldl (fun acc c => acc * 10 + (c.toNat - 48)) 0

/-- parseInt with radix 10 on a character list: skip leading spaces, accept
an optional sign, then require at least one leading decimal digit; none
models the NaN result. -/
def jsParseIntChars (cs : List Char) : Option Int :=
  let cs1 := cs.dropWhile (fun c => c == ' ')
  let signAndRest : Bool × List Char :=
    match cs1 with
    | '-' :: r => (true, r)
    | '+' :: r => (false, r)
    | r => (false, r)
  let ds := signAndRest.2.takeWhile (fun c => c.isDigit)
  if ds.isEmpty then none
  else
    let n : Int := Int.ofNat (digitsToNat ds)
    some (if signAndRest.1 then -n else n)

/-- parseInt with radix 10 on a JS value: integers parse to themselves (JS
stringifies and reparses), strings go through the character parse; none
models NaN. -/
def jsParseInt : JSVal → Option Int
  | .num n => some n
  | .str s => jsParseIntChars s.toList

/-- Math.min lifted to possibly-NaN numbers: NaN is contagious. -/
def jsMin (a b : Option Int) : Option Int :=
  match a, b with
  | some x, some y => some (min x y)
  | _, _ => none

/-- Math.max lifted to possibly-NaN numbers: NaN is contagious. -/
def jsMax (a b : Option Int) : Option Int :=
  match a, b with
  | some x, some y => some (max x y)
  | _, _ => none

/-- A transport-control call forwarded to the device collaborator. -/
inductive DeviceCall
  | togglePlayback
  | next
  | setVolume (v : Int)
  deriving DecidableEq, Repr

/-- handleTogglePlayPause: when the group ID is unknown, log and return
without touching state or the device; otherwise call togglePlayback. -/
def handleTogglePlayPause (s : ModuleState) (groupId : String) :
    ModuleState × Option DeviceCall :=
  match s.groupsById.lookup groupId with
  | none => (s, none)
  | some _ => (s, some DeviceCall.togglePlayback)

/-- handleNext: when the group ID is unknown, log and return without
touching state or the device; otherwise call next. -/
def handleNext (s : ModuleState) (groupId : String) :
    ModuleState × Option DeviceCall :=
  match s.groupsById.lookup groupId with
  | none => (s, none)
  | some _ => (s, some DeviceCall.next)

/-- handleSetVolume (src/unnamed/part_000 lines 933-955): when the group ID
is unknown, return with no call; otherwise clamp
Math.max(0, Math.min(100, parseInt(volume, 10))) with NaN contagion, reject
a NaN result with no call, and otherwise forward setVolume(clamped). -/
def handleSetVolume (s : ModuleState) (groupId : String) (volume : JSVal) :
    ModuleState × Option DeviceCall :=
  match s.groupsById.lookup groupId with
  | none => (s, none)
  | some _ =>
    match jsMax (some 0) (jsMin (some 100) (jsParseInt volume)) with
    | none => (s, none)
    | some v => (s, some (DeviceCall.setVolume v))

section StepLemmas

/-- The track block never touches the stored volume. -/
@[simp] theorem trackStep_lastVolume (h : HealthRecord) (r : Option (Option Track)) :
    (trackStep h r).1.lastVolume = h.lastVolume := by
  rcases r with _ | (_ | t) <;> simp [trackStep] <;> split <;> rfl

/-- The track block never touches the stored mute flag. -/
@[simp] theorem trackStep_lastMuted (h : HealthRecord) (r : Option (Option Track)) :
    (trackStep h r).1.lastMuted = h.lastMuted := by
  rcases r with _ | (_ | t) <;> simp [trackStep] <;> split <;> rfl

/-- The track block never touches the play state. -/
@[simp] theorem trackStep_playState (h : HealthRecord) (r : Option (Option Track)) :
    (trackStep h r).1.playState = h.playState := by
  rcases r with _ | (_ | t) <;> simp [trackStep] <;> split <;> rfl

/-- The track block never touches the failure counter. -/
@[simp] theorem trackStep_failures (h : HealthRecord) (r : Option (Option Track)) :
    (trackStep h r).1.consecutiveFailures = h.consecutiveFailures := by
  rcases r with _ | (_ | t) <;> simp [trackStep] <;> split <;> rfl

/-- The volume block never touches the stored track. -/
@[simp] theorem volumeStep_lastTrack (h : HealthRecord) (r : Option Int) :
    (volumeStep h r).1.lastTrack = h.lastTrack := by
  rcases r with _ | v <;> simp [volumeStep] <;> split <;> rfl

/-- The volume block never touches the stored mute flag. -/
@[simp] theorem volumeStep_lastMuted (h : HealthRecord) (r : Option Int) :
    (volumeStep h r).1.lastMuted = h.lastMuted := by
  rcases r with _ | v <;> simp [volumeStep] <;> split <;> rfl

/-- The volume block never touches the play state. -/
@[simp] theorem volumeStep_playState (h : HealthRecord) (r : Option Int) :
    (volumeStep h r).1.playState = h.playState := by
  rcases r with _ | v <;> simp [volumeStep] <;> split <;> rfl

/-- The volume block never touches the failure counter. -/
@[simp] theorem volumeStep_failures (h : HealthRecord) (r : Option Int) :
    (volumeStep h r).1.consecutiveFailures = h.consecutiveFailures := by
  rcases r with _ | v <;> simp [volumeStep] <;> split <;> rfl

/-- The mute block never touches the stored track. -/
@[simp] theorem muteStep_lastTrack (h : HealthRecord) (r : Option Bool) :
    (muteStep h r).1.lastTrack = h.lastTrack := by
  rcases r with _ | b <;> simp [muteStep] <;> split <;> rfl

/-- The mute block never touches the stored volume. -/
@[simp] theorem muteStep_lastVolume (h : HealthRecord) (r : Option Bool) :
    (muteStep h r).1.lastVolume = h.lastVolume := by
  rcases r with _ | b <;> simp [muteStep] <;> split <;> rfl

/-- The mute block never touches the play state. -/
@[simp] theorem muteStep_playState (h : HealthRecord) (r : Option Bool) :
    (muteStep h r).1.playState = h.playState := by
  rcases r with _ | b <;> simp [muteStep] <;> split <;> rfl

/-- The mute block never touches the failure counter. -/
@[simp] theorem muteStep_failures (h : HealthRecord) (r : Option Bool) :
    (muteStep h r).1.consecutiveFailures = h.consecutiveFailures := by
  rcases r with _ | b <;> simp [muteStep] <;> split <;> rfl

/-- The play-state block never touches the stored track. -/
@[simp] theorem stateStep_lastTrack (h : HealthRecord) (r : Option String) :
    (stateStep h r).1.lastTrack = h.lastTrack := by
  rcases r with _ | s <;> simp [stateStep] <;> split <;> rfl

/-- The play-state block never touches the stored volume. -/
@[simp] theorem stateStep_lastVolume (h : HealthRecord) (r : Option String) :
    (stateStep h r).1.lastVolume = h.lastVolume := by
  rcases r with _ | s <;> simp [stateStep] <;> split <;> rfl

/-- The play-state block never touches the stored mute flag. -/
@[simp] theorem stateStep_lastMuted (h : HealthRecord) (r : Option String) :
    (stateStep h r).1.lastMuted = h.lastMuted := by
  rcases r with _ | s <;> simp [stateStep] <;> split <;> rfl

/-- The play-state block never touches the failure counter. -/
@[simp] theorem stateStep_failures (h : HealthRecord) (r : Option String) :
    (stateStep h r).1.consecutiveFailures = h.consecutiveFailures := by
  rcases r with _ | s <;> simp [stateStep] <;> split <;> rfl

/-- A rejected track fetch leaves the record alone and sends nothing. -/
@[simp] theorem trackStep_rejected (h : HealthRecord) :
    trackStep h none = (h, none) := rfl

/-- A fulfilled track fetch with a null value leaves the record alone and
sends nothing. -/
@[simp] theorem trackStep_nullValue (h : HealthRecord) :
    trackStep h (some none) = (h, none) := rfl

/-- A track whose metadata tuple equals the stored one is not a change. -/
theorem trackStep_sameTuple (h : HealthRecord) (lt t : Track)
    (hl : h.lastTrack = some lt) (he : trackTupleEq lt t = true) :
    trackStep h (some (some t)) = (h, none) := by
  simp [trackStep, hl, he]

/-- With no stored track, an observed track is a change: stored and sent. -/
theorem trackStep_firstTrack (h : HealthRecord) (t : Track)
    (hl : h.lastTrack = none) :
    trackStep h (some (some t)) = ({ h with lastTrack := some t }, some t) := by
  simp [trackStep, hl]

/-- A track whose metadata tuple differs from the stored one is a change:
stored and sent. -/
theorem trackStep_newTuple (h : HealthRecord) (lt t : Track)
    (hl : h.lastTrack = some lt) (he : trackTupleEq lt t = false) :
    trackStep h (some (some t)) = ({ h with lastTrack := some t }, some t) := by
  simp [trackStep, hl, he]

/-- A rejected volume fetch leaves the record alone and sends nothing. -/
@[simp] theorem volumeStep_rejected (h : HealthRecord) :
    volumeStep h none = (h, none) := rfl

/-- An unchanged volume is not stored again and not sent. -/
theorem volumeStep_same (h : HealthRecord) (v : Int)
    (hv : h.lastVolume = some v) :
    volumeStep h (some v) = (h, none) := by
  simp [volumeStep, hv]

/-- A changed volume is stored and sent. -/
theorem volumeStep_changed (h : HealthRecord) (v : Int)
    (hv : h.lastVolume ≠ some v) :
    volumeStep h (some v) = ({ h with lastVolume := some v }, some v) := by
  simp [volumeStep, hv]

/-- A rejected mute fetch leaves the record alone and sends nothing. -/
@[simp] theorem muteStep_rejected (h : HealthRecord) :
    muteStep h none = (h, none) := rfl

/-- An unchanged mute flag is not stored again and not sent. -/
theorem muteStep_same (h : HealthRecord) (b : Bool)
    (hb : h.lastMuted = some b) :
    muteStep h (some b) = (h, none) := by
  simp [muteStep, hb]

/-- A changed mute flag is stored and sent. -/
theorem muteStep_changed (h : HealthRecord) (b : Bool)
    (hb : h.lastMuted ≠ some b) :
    muteStep h (some b) = ({ h with lastMuted := some b }, some b) := by
  simp [muteStep, hb]

/-- A rejected state fetch leaves the record alone and sends nothing. -/
@[simp] theorem stateStep_rejected (h : HealthRecord) :
    stateStep h none = (h, none) := rfl

/-- An unchanged play state is not stored again and not sent. -/
theorem stateStep_same (h : HealthRecord) (st : String)
    (hs : h.playState = st) :
    stateStep h (some st) = (h, none) := by
  simp [stateStep, hs]

/-- A changed play state is stored and sent. -/
theorem stateStep_changed (h : HealthRecord) (st : String)
    (hs : h.playState ≠ st) :
    stateStep h (some st) = ({ h with playState := st }, some st) := by
  simp [stateStep, hs]

/-- Unfolding of pollGroupStep when at least one fetch succeeded: the four
blocks run in source order on the record with its failure counter reset. -/
theorem pollGroupStep_success (m : Nat) (h : HealthRecord) (r : PollResults)
    (hs : (r.track.isSome || r.volume.isSome || r.muted.isSome ||
      r.state.isSome) = true) :
    pollGroupStep m h r =
      { health :=
          (stateStep (muteStep (volumeStep
            (trackStep { h with consecutiveFailures := 0 } r.track).1
              r.volume).1 r.muted).1 r.state).1
        emitted :=
          { track := (trackStep { h with consecutiveFailures := 0 } r.track).2
            volume := (volumeStep
              (trackStep { h with consecutiveFailures := 0 } r.track).1
                r.volume).2
            muted := (muteStep (volumeStep
              (trackStep { h with consecutiveFailures := 0 } r.track).1
                r.volume).1 r.muted).2
            state := (stateStep (muteStep (volumeStep
              (trackStep { h with consecutiveFailures := 0 } r.track).1
                r.volume).1 r.muted).1 r.state).2 }
        rediscover := false } := by
  rw [pollGroupStep]
  simp [hs]

end StepLemmas

section SampleData

/-- A concrete track with a streaming URI. -/
def track1 : Track :=
  { title := "Song1", artist := "ArtistX", album := "AlbumY"
    duration := 180, uri := "x-sonos-stream:a" }

/-- The same metadata tuple as track1 delivered with a different URI. -/
def track1b : Track :=
  { title := "Song1", artist := "ArtistX", album := "AlbumY"
    duration := 180, uri := "x-sonos-stream:b" }

/-- A concrete health record of a playing group with stored observations. -/
def sampleHealth : HealthRecord :=
  { device := some 1
    playState := "playing"
    consecutiveFailures := 0
    lastTrack := some track1
    lastVolume := some 30
    lastMuted := some false }

/-- A concrete module state tracking one playing group. -/
def sampleState : ModuleState :=
  { groupsById := [("g1", 11)]
    groups := ["g1"]
    groupHealth := [("g1", sampleHealth)]
    subscribedDevices := [1]
    pollTimeout := some 7
    subscriptionCheckTimer := some 8
    asyncDevice := some 9
    listenerSubscriptions := [1]
    isRediscovering := false }

/-- The sample state with the rediscovery marker already set. -/
def redState : ModuleState := { sampleState with isRediscovering := true }

/-- The sample state with every tracked group idle. -/
def idleState : ModuleState :=
  { sampleState with groupHealth := [("g1", initHealth)] }

/-- A configuration object with every optional field absent. -/
def cfgDefault : Config :=
  { timeouts := none
    pollingIntervalPlaying := none
    pollingIntervalIdle := none
    autoResubscribe := false
    subscriptionCheckInterval := none
    maxConsecutiveFailures := none }

/-- The default configuration with the idle polling interval set to 0. -/
def cfgIdleZero : Config := { cfgDefault with pollingIntervalIdle := some 0 }

/-- The default configuration with explicit 15000/60000 polling intervals. -/
def cfg1560 : Config :=
  { cfgDefault with
    pollingIntervalPlaying := some 15000
    pollingIntervalIdle := some 60000 }

/-- Poll results in which all four fetches were rejected. -/
def allFailResults : PollResults :=
  { track := none, volume := none, muted := none, state := none }

/-- Poll results in which only the volume fetch succeeded. -/
def obsVolumeOnly : PollResults :=
  { track := none, volume := some 45, muted := none, state := none }

/-- Poll results in which only the track fetch succeeded, delivering the
tuple of track1 under a different URI. -/
def obsSameTuple : PollResults :=
  { track := some (some track1b), volume := none, muted := none, state := none }

/-- Poll results in which only the track fetch succeeded, delivering track1. -/
def obsTrackOnly : PollResults :=
  { track := some (some track1), volume := none, muted := none, state := none }

/-- An environment in which every renewal call succeeds in time. -/
def renewAlways : Nat → Bool := fun _ => true

end SampleData

/-- C1: triggerRediscovery is idempotent/guarded.  While the isRediscovering
marker is set, a further call from any origin returns the state unchanged
with no second teardown (so no timer is cleared twice and nothing is reset
again), the state stays Rediscovering, and only the scheduled delayed
restart clears the marker. -/
theorem triggerRediscovery_guarded (s : ModuleState)
    (h : s.isRediscovering = true) :
    triggerRediscovery s = { state := s, teardownRan := false } ∧
    (triggerRediscovery s).state.isRediscovering = true ∧
    (rediscoveryRestart (triggerRediscovery s).state).isRediscovering = false := by
  refine ⟨?_, ?_, ?_⟩ <;> simp [triggerRediscovery, h, rediscoveryRestart]

/-- Witness for C1 at a concrete rediscovering state. -/
theorem triggerRediscovery_guarded_witness :
    triggerRediscovery redState = { state := redState, teardownRan := false } ∧
    (triggerRediscovery redState).state.isRediscovering = true ∧
    (rediscoveryRestart (triggerRediscovery redState).state).isRediscovering
      = false :=
  triggerRediscovery_guarded redState rfl

/-- C3: a poll cycle in which all four fetches fail increments
consecutiveFailures by exactly one, leaves every stored field value
unchanged, emits no change notification, and invokes rediscovery exactly
when the incremented counter has reached the configured maximum. -/
theorem pollGroup_totalFailure (m : Nat) (h : HealthRecord) (r : PollResults)
    (ht : r.track = none) (hv : r.volume = none) (hm : r.muted = none)
    (hs : r.state = none) :
    (pollGroupStep m h r).health.consecutiveFailures
      = h.consecutiveFailures + 1 ∧
    (pollGroupStep m h r).health.lastTrack = h.lastTrack ∧
    (pollGroupStep m h r).health.lastVolume = h.lastVolume ∧
    (pollGroupStep m h r).health.lastMuted = h.lastMuted ∧
    (pollGroupStep m h r).health.playState = h.playState ∧
    (pollGroupStep m h r).emitted = noEmit ∧
    ((pollGroupStep m h r).rediscover = true ↔
      m ≤ h.consecutiveFailures + 1) := by
  refine ⟨?_, ?_, ?_, ?_, ?_, ?_, ?_⟩ <;>
    simp [pollGroupStep, ht, hv, hm, hs, noEmit]

/-- Witness for C3 at a concrete record and total-failure results. -/
theorem pollGroup_totalFailure_witness :
    (pollGroupStep 3 sampleHealth allFailResults).health.consecutiveFailures
      = sampleHealth.consecutiveFailures + 1 ∧
    (pollGroupStep 3 sampleHealth allFailResults).health.lastTrack
      = sampleHealth.lastTrack ∧
    (pollGroupStep 3 sampleHealth allFailResults).emitted = noEmit :=
  ⟨(pollGroup_totalFailure 3 sampleHealth allFailResults rfl rfl rfl rfl).1,
   (pollGroup_totalFailure 3 sampleHealth allFailResults rfl rfl rfl rfl).2.1,
   (pollGroup_totalFailure 3 sampleHealth allFailResults rfl rfl rfl rfl).2.2.2.2.2.1⟩

/-- C5 counterexample: with an idle interval explicitly configured as 0 and
no group playing, the scheduler's delay is the default 60000, not the
configured value 0, because getPollingInterval defaults with the JS
logical-or, which treats 0 as falsy.  This refutes the unqualified claim
that the delay always equals the configured idleInterval. -/
theorem getPollingInterval_zeroIdle_counterexample :
    cfgIdleZero.pollingIntervalIdle = some 0 ∧
    isAnyGroupPlaying idleState.groupHealth = false ∧
    getPollingInterval cfgIdleZero idleState.groupHealth = 60000 ∧
    (60000 : Nat) ≠ 0 := by
  decide

/-- C5 amended: provided the configured intervals are nonzero, the scheduled
delay equals the configured playingInterval when at least one tracked group
has playState playing and the configured idleInterval otherwise (a missing
or zero configured value instead falls back to 15000 or 60000). -/
theorem schedulePoll_adaptiveDelay (cfg : Config) (s : ModuleState)
    (freshId p i : Nat)
    (hp : cfg.pollingIntervalPlaying = some p) (hp0 : p ≠ 0)
    (hi : cfg.pollingIntervalIdle = some i) (hi0 : i ≠ 0) :
    (schedulePoll cfg s freshId).delay =
      if isAnyGroupPlaying s.groupHealth then p else i := by
  simp [schedulePoll, getPollingInterval, jsOr, hp, hi, hp0, hi0]

/-- Witness for C5 amended: with 15000/60000 configured, one playing group
gives a scheduled delay of 15000 and an all-idle state gives 60000. -/
theorem schedulePoll_adaptiveDelay_witness :
    (schedulePoll cfg1560 sampleState 1).delay = 15000 ∧
    (schedulePoll cfg1560 idleState 1).delay = 60000 := by
  constructor
  · rw [schedulePoll_adaptiveDelay cfg1560 sampleState 1 15000 60000 rfl
      (by decide) rfl (by decide)]
    decide
  · rw [schedulePoll_adaptiveDelay cfg1560 idleState 1 15000 60000 rfl
      (by decide) rfl (by decide)]
    decide

/-- C6: entering rediscovery clears the in-flight poll marker, so the
completion callback of a cycle already running at cancellation time sees a
null marker and does not reschedule the chain; and the callback reschedules
only when the marker is non-null. -/
theorem rediscovery_cancels_pollChain (cfg : Config) (s : ModuleState)
    (freshId : Nat) (h : s.isRediscovering = false) :
    (triggerRediscovery s).state.pollTimeout = none ∧
    pollCycleFinally cfg (triggerRediscovery s).state freshId =
      ((triggerRediscovery s).state, false) ∧
    (∀ t : ModuleState, (pollCycleFinally cfg t freshId).2 = true →
      t.pollTimeout ≠ none) := by
  refine ⟨?_, ?_, ?_⟩
  · simp [triggerRediscovery, h]
  · simp [pollCycleFinally, triggerRediscovery, h]
  · intro t ht hnone
    rw [pollCycleFinally, hnone] at ht
    simp at ht

/-- Witness for C6 at a concrete stable state with a pending poll timer. -/
theorem rediscovery_cancels_pollChain_witness :
    (triggerRediscovery sampleState).state.pollTimeout = none ∧
    pollCycleFinally cfgDefault (triggerRediscovery sampleState).state 1 =
      ((triggerRediscovery sampleState).state, false) :=
  ⟨(rediscovery_cancels_pollChain cfgDefault sampleState 1 rfl).1,
   (rediscovery_cancels_pollChain cfgDefault sampleState 1 rfl).2.1⟩

/-- C4: track-change detection compares tracks by the
(title, artist, album, duration) tuple only.  When the observed track's
tuple equals the stored one, no track notification is sent and the stored
track (URI included) is untouched, whatever the observed URI; a track
notification is sent exactly when there is no stored track or some tuple
component differs. -/
theorem pollGroup_trackTupleIdentity (m : Nat) (h : HealthRecord)
    (r : PollResults) (t : Track) (ht : r.track = some (some t)) :
    ((∃ lt, h.lastTrack = some lt ∧ trackTupleEq lt t = true) →
      (pollGroupStep m h r).emitted.track = none ∧
      (pollGroupStep m h r).health.lastTrack = h.lastTrack) ∧
    ((h.lastTrack = none ∨
        ∃ lt, h.lastTrack = some lt ∧ trackTupleEq lt t = false) →
      (pollGroupStep m h r).emitted.track = some t ∧
      (pollGroupStep m h r).health.lastTrack = some t) := by
  have hs : (r.track.isSome || r.volume.isSome || r.muted.isSome ||
      r.state.isSome) = true := by
    simp [ht]
  rw [pollGroupStep_success m h r hs, ht]
  constructor
  · rintro ⟨lt, hl, he⟩
    have hl0 : ({ h with consecutiveFailures := 0 } : HealthRecord).lastTrack
        = some lt := hl
    rw [trackStep_sameTuple _ lt t hl0 he]
    simp
  · rintro (hl | ⟨lt, hl, he⟩)
    · have hl0 : ({ h with consecutiveFailures := 0 } : HealthRecord).lastTrack
          = none := hl
      rw [trackStep_firstTrack _ t hl0]
      simp
    · have hl0 : ({ h with consecutiveFailures := 0 } : HealthRecord).lastTrack
          = some lt := hl
      rw [trackStep_newTuple _ lt t hl0 he]
      simp

/-- Witness for C4: the stored track and the observed one share the tuple
but differ in URI; nothing is emitted and the stored track is kept. -/
theorem pollGroup_trackTupleIdentity_witness :
    (pollGroupStep 3 sampleHealth obsSameTuple).emitted.track = none ∧
    (pollGroupStep 3 sampleHealth obsSameTuple).health.lastTrack
      = sampleHealth.lastTrack :=
  (pollGroup_trackTupleIdentity 3 sampleHealth obsSameTuple track1b rfl).1
    ⟨track1, rfl, by decide⟩

/-- C9: for a known group, handleSetVolume forwards every numeric argument
clamped into 0..100 (150 becomes 100, any negative becomes 0) and makes no
collaborator call for any input whose parseInt is NaN, such as the string
abc. -/
theorem handleSetVolume_clamps (s : ModuleState) (gid : String) (g : Nat)
    (hg : s.groupsById.lookup gid = some g) :
    (∀ n : Int, handleSetVolume s gid (JSVal.num n) =
      (s, some (DeviceCall.setVolume (max 0 (min 100 n))))) ∧
    (∀ n : Int, 0 ≤ max 0 (min 100 n) ∧ max 0 (min 100 n) ≤ 100) ∧
    handleSetVolume s gid (JSVal.num 150)
      = (s, some (DeviceCall.setVolume 100)) ∧
    (∀ n : Int, n < 0 → handleSetVolume s gid (JSVal.num n)
      = (s, some (DeviceCall.setVolume 0))) ∧
    (∀ w : String, jsParseInt (JSVal.str w) = none →
      handleSetVolume s gid (JSVal.str w) = (s, none)) := by
  refine ⟨?_, ?_, ?_, ?_, ?_⟩
  · intro n
    simp [handleSetVolume, hg, jsParseInt, jsMin, jsMax]
  · intro n
    exact ⟨le_max_left _ _, max_le (by norm_num) (min_le_left _ _)⟩
  · simp [handleSetVolume, hg, jsParseInt, jsMin, jsMax]
  · intro n hn
    simp [handleSetVolume, hg, jsParseInt, jsMin, jsMax]
    omega
  · intro w hw
    simp [handleSetVolume, hg, hw, jsMin, jsMax]

/-- Witness for C9 at a concrete state: 150 is forwarded as 100, -5 as 0,
and the string abc produces no call. -/
theorem handleSetVolume_clamps_witness :
    handleSetVolume sampleState "g1" (JSVal.num 150)
      = (sampleState, some (DeviceCall.setVolume 100)) ∧
    handleSetVolume sampleState "g1" (JSVal.num (-5))
      = (sampleState, some (DeviceCall.setVolume 0)) ∧
    handleSetVolume sampleState "g1" (JSVal.str "abc")
      = (sampleState, none) :=
  ⟨(handleSetVolume_clamps sampleState "g1" 11 rfl).2.2.1,
   (handleSetVolume_clamps sampleState "g1" 11 rfl).2.2.2.1 (-5) (by decide),
   (handleSetVolume_clamps sampleState "g1" 11 rfl).2.2.2.2 "abc" rfl⟩

/-- C10: every control command invoked with a group ID that is not a key of
groupsById returns after logging with the module state unchanged and no
device collaborator call. -/
theorem controlHandlers_unknownGroup_noop (s : ModuleState) (gid : String)
    (h : s.groupsById.lookup gid = none) :
    handleTogglePlayPause s gid = (s, none) ∧
    handleNext s gid = (s, none) ∧
    (∀ v : JSVal, handleSetVolume s gid v = (s, none)) := by
  refine ⟨?_, ?_, ?_⟩ <;>
    simp [handleTogglePlayPause, handleNext, handleSetVolume, h]

/-- Witness for C10 at a concrete state and an unknown group ID. -/
theorem controlHandlers_unknownGroup_noop_witness :
    handleTogglePlayPause sampleState "nope" = (sampleState, none) ∧
    handleNext sampleState "nope" = (sampleState, none) ∧
    handleSetVolume sampleState "nope" (JSVal.num 50) = (sampleState, none) :=
  ⟨(controlHandlers_unknownGroup_noop sampleState "nope" rfl).1,
   (controlHandlers_unknownGroup_noop sampleState "nope" rfl).2.1,
   (controlHandlers_unknownGroup_noop sampleState "nope" rfl).2.2 (JSVal.num 50)⟩

/-- C2: in a poll cycle where at least one but not all of the four fetches
succeed, the failure counter is reset to 0 and no rediscovery is invoked;
every field whose fetch failed keeps its stored value and sends nothing;
and every field whose fetch succeeded is compared under its equality rule,
stored and sent exactly when it differs from the stored value. -/
theorem pollGroup_partialFailure (m : Nat) (h : HealthRecord)
    (r : PollResults)
    (hsome : (r.track.isSome || r.volume.isSome || r.muted.isSome ||
      r.state.isSome) = true)
    (hnotall : ¬ (r.track.isSome = true ∧ r.volume.isSome = true ∧
      r.muted.isSome = true ∧ r.state.isSome = true)) :
    (pollGroupStep m h r).health.consecutiveFailures = 0 ∧
    (pollGroupStep m h r).rediscover = false ∧
    (r.track = none →
      (pollGroupStep m h r).health.lastTrack = h.lastTrack ∧
      (pollGroupStep m h r).emitted.track = none) ∧
    (r.track = some none →
      (pollGroupStep m h r).health.lastTrack = h.lastTrack ∧
      (pollGroupStep m h r).emitted.track = none) ∧
    (r.volume = none →
      (pollGroupStep m h r).health.lastVolume = h.lastVolume ∧
      (pollGroupStep m h r).emitted.volume = none) ∧
    (r.muted = none →
      (pollGroupStep m h r).health.lastMuted = h.lastMuted ∧
      (pollGroupStep m h r).emitted.muted = none) ∧
    (r.state = none →
      (pollGroupStep m h r).health.playState = h.playState ∧
      (pollGroupStep m h r).emitted.state = none) ∧
    (∀ v, r.volume = some v →
      (h.lastVolume = some v →
        (pollGroupStep m h r).health.lastVolume = h.lastVolume ∧
        (pollGroupStep m h r).emitted.volume = none) ∧
      (h.lastVolume ≠ some v →
        (pollGroupStep m h r).health.lastVolume = some v ∧
        (pollGroupStep m h r).emitted.volume = some v)) ∧
    (∀ b, r.muted = some b →
      (h.lastMuted = some b →
        (pollGroupStep m h r).health.lastMuted = h.lastMuted ∧
        (pollGroupStep m h r).emitted.muted = none) ∧
      (h.lastMuted ≠ some b →
        (pollGroupStep m h r).health.lastMuted = some b ∧
        (pollGroupStep m h r).emitted.muted = some b)) ∧
    (∀ st, r.state = some st →
      (h.playState = st →
        (pollGroupStep m h r).health.playState = h.playState ∧
        (pollGroupStep m h r).emitted.state = none) ∧
      (h.playState ≠ st →
        (pollGroupStep m h r).health.playState = st ∧
        (pollGroupStep m h r).emitted.state = some st)) ∧
    (∀ t, r.track = some (some t) →
      ((∃ lt, h.lastTrack = some lt ∧ trackTupleEq lt t = true) →
        (pollGroupStep m h r).health.lastTrack = h.lastTrack ∧
        (pollGroupStep m h r).emitted.track = none) ∧
      ((h.lastTrack = none ∨
          ∃ lt, h.lastTrack = some lt ∧ trackTupleEq lt t = false) →
        (pollGroupStep m h r).health.lastTrack = some t ∧
        (pollGroupStep m h r).emitted.track = some t)) := by
  rw [pollGroupStep_success m h r hsome]
  refine ⟨by simp, rfl, ?_, ?_, ?_, ?_, ?_, ?_, ?_, ?_, ?_⟩
  · intro ht
    rw [ht]
    simp
  · intro ht
    rw [ht]
    simp
  · intro hv
    rw [hv]
    simp
  · intro hm
    rw [hm]
    simp
  · intro hst
    rw [hst]
    simp
  · intro v hv
    rw [hv]
    constructor
    · intro hsame
      rw [volumeStep_same _ v (by simp [hsame])]
      simp
    · intro hdiff
      have hne : (trackStep { h with consecutiveFailures := 0 }
          r.track).1.lastVolume ≠ some v := by
        simpa using hdiff
      rw [volumeStep_changed _ v hne]
      simp
  · intro b hb
    rw [hb]
    constructor
    · intro hsame
      rw [muteStep_same _ b (by simp [hsame])]
      simp
    · intro hdiff
      have hne : (volumeStep (trackStep { h with consecutiveFailures := 0 }
          r.track).1 r.volume).1.lastMuted ≠ some b := by
        simpa using hdiff
      rw [muteStep_changed _ b hne]
      simp
  · intro st hst
    rw [hst]
    constructor
    · intro hsame
      rw [stateStep_same _ st (by simp [hsame])]
      simp
    · intro hdiff
      have hne : (muteStep (volumeStep (trackStep
          { h with consecutiveFailures := 0 } r.track).1 r.volume).1
            r.muted).1.playState ≠ st := by
        simpa using hdiff
      rw [stateStep_changed _ st hne]
      simp
  · intro t ht
    rw [ht]
    constructor
    · rintro ⟨lt, hl, he⟩
      have hl0 : ({ h with consecutiveFailures := 0 } :
          HealthRecord).lastTrack = some lt := hl
      rw [trackStep_sameTuple _ lt t hl0 he]
      simp
    · rintro (hl | ⟨lt, hl, he⟩)
      · have hl0 : ({ h with consecutiveFailures := 0 } :
            HealthRecord).lastTrack = none := hl
        rw [trackStep_firstTrack _ t hl0]
        simp
      · have hl0 : ({ h with consecutiveFailures := 0 } :
            HealthRecord).lastTrack = some lt := hl
        rw [trackStep_newTuple _ lt t hl0 he]
        simp

/-- Witness for C2: only the volume fetch succeeds, with a value differing
from the stored one; the counter resets, the volume is stored and sent, and
the track is untouched with nothing sent for it. -/
theorem pollGroup_partialFailure_witness :
    (pollGroupStep 3 sampleHealth obsVolumeOnly).health.consecutiveFailures
      = 0 ∧
    (pollGroupStep 3 sampleHealth obsVolumeOnly).health.lastTrack
      = sampleHealth.lastTrack ∧
    (pollGroupStep 3 sampleHealth obsVolumeOnly).emitted.track = none ∧
    (pollGroupStep 3 sampleHealth obsVolumeOnly).health.lastVolume
      = some 45 ∧
    (pollGroupStep 3 sampleHealth obsVolumeOnly).emitted.volume = some 45 := by
  have H := pollGroup_partialFailure 3 sampleHealth obsVolumeOnly
    (by decide) (by decide)
  exact ⟨H.1, (H.2.2.1 rfl).1, (H.2.2.1 rfl).2,
    ((H.2.2.2.2.2.2.2.1 45 rfl).2 (by decide)).1,
    ((H.2.2.2.2.2.2.2.1 45 rfl).2 (by decide)).2⟩

/-- C7: the subscription health check is created only when autoResubscribe
is configured; a firing does nothing when no tracked group is playing; when
it runs, a tracked group without a stored device handle escalates directly
to rediscovery, and one with a handle gets a renewal attempt under the
shared apiCall timeout; the renewal attempt escalates to rediscovery
exactly when the device has no DeviceSubscription entry or the renewal call
fails or times out. -/
theorem subscriptionHealthCheck_spec (cfg : Config) (s : ModuleState)
    (renewOk : Nat → Bool) (freshId : Nat) :
    (cfg.autoResubscribe = false →
      startSubscriptionHealthCheck cfg s freshId = s) ∧
    (isAnyGroupPlaying s.groupHealth = false →
      subscriptionCheckTick cfg s renewOk = []) ∧
    (isAnyGroupPlaying s.groupHealth = true →
      ∀ gid ∈ s.groups,
        ((s.groupHealth.lookup gid).bind (fun hr => hr.device) = none →
          (gid, GroupCheck.escalateMissing) ∈
            subscriptionCheckTick cfg s renewOk) ∧
        (∀ d, (s.groupHealth.lookup gid).bind (fun hr => hr.device)
            = some d →
          (gid, GroupCheck.renewal d (renewTimeout cfg)
            (renewDeviceSubscriptions s.listenerSubscriptions renewOk d)) ∈
              subscriptionCheckTick cfg s renewOk)) ∧
    (∀ d, renewDeviceSubscriptions s.listenerSubscriptions renewOk d = true ↔
      (s.listenerSubscriptions.contains d = false ∨ renewOk d = false)) := by
  refine ⟨?_, ?_, ?_, ?_⟩
  · intro ha
    simp [startSubscriptionHealthCheck, ha]
  · intro hp
    simp [subscriptionCheckTick, hp]
  · intro hp gid hgid
    have hne : s.groups.isEmpty = false := by
      cases hg : s.groups with
      | nil => rw [hg] at hgid; cases hgid
      | cons a l => simp [hg]
    constructor
    · intro hnone
      rw [subscriptionCheckTick]
      simp only [hp, hne]
      simp only [Bool.not_true, if_false, Bool.false_eq_true, if_neg]
      exact List.mem_map.mpr ⟨gid, hgid, by rw [hnone]⟩
    · intro d hd
      rw [subscriptionCheckTick]
      simp only [hp, hne]
      simp only [Bool.not_true, if_false, Bool.false_eq_true, if_neg]
      exact List.mem_map.mpr ⟨gid, hgid, by rw [hd]⟩
  · intro d
    rw [renewDeviceSubscriptions]
    cases hc : s.listenerSubscriptions.contains d <;> simp [hc]

/-- Witness for C7: in the sample playing state the tracked group has a
stored device present among the listener subscriptions and a succeeding
renewal environment, so the firing performs a non-escalating renewal under
the default 5000ms apiCall timeout. -/
theorem subscriptionHealthCheck_spec_witness :
    ("g1", GroupCheck.renewal 1 5000 false) ∈
      subscriptionCheckTick cfgDefault sampleState renewAlways := by
  have H := (subscriptionHealthCheck_spec cfgDefault sampleState
    renewAlways 1).2.2.1 (by decide) "g1" (by simp [sampleState])
  exact H.2 1 (by decide)

/-- C8 counterexample: starting from a fresh health record, a poll cycle
observing track1 sends a track notification carrying track1, and a push
event then delivering the very same value sends a second notification with
the same value through the unconditional push handler: two notifications
for one distinct value when the poll reconciles first, refuting the claimed
at-most-one-notification-per-distinct-value symmetry. -/
theorem pollThenPush_duplicate_counterexample :
    (pollGroupStep 3 initHealth obsTrackOnly).emitted.track = some track1 ∧
    (onPushTrack (pollGroupStep 3 initHealth obsTrackOnly).health
      track1).2 = some track1 := by
  decide

/-- C8 amended: a push event for a field writes the received value into the
health record, so a poll cycle that afterwards observes a value equal under
that field's rule (tuple equality for tracks, value equality otherwise)
emits no duplicate notification for that field; in the reverse order the
push handler notifies unconditionally, so dedup holds only push-first. -/
theorem pushThenPoll_noDuplicate (m : Nat) (h : HealthRecord)
    (r : PollResults) :
    (∀ t t2, r.track = some (some t2) → trackTupleEq t t2 = true →
      (pollGroupStep m (onPushTrack h t).1 r).emitted.track = none) ∧
    (∀ v, r.volume = some v →
      (pollGroupStep m (onPushVolume h v).1 r).emitted.volume = none) ∧
    (∀ b, r.muted = some b →
      (pollGroupStep m (onPushMuted h b).1 r).emitted.muted = none) ∧
    (∀ st, r.state = some st →
      (pollGroupStep m (onPushState h st).1 r).emitted.state = none) := by
  refine ⟨?_, ?_, ?_, ?_⟩
  · intro t t2 ht he
    rw [pollGroupStep_success m _ r (by simp [ht]), ht]
    rw [trackStep_sameTuple _ t t2 rfl he]
  · intro v hv
    rw [pollGroupStep_success m _ r (by simp [hv]), hv]
    rw [volumeStep_same _ v (by simp [onPushVolume])]
  · intro b hb
    rw [pollGroupStep_success m _ r (by simp [hb]), hb]
    rw [muteStep_same _ b (by simp [onPushMuted])]
  · intro st hst
    rw [pollGroupStep_success m _ r (by simp [hst]), hst]
    rw [stateStep_same _ st (by simp [onPushState])]

/-- Witness for C8 amended: after a push of track1 a poll observing the
same tuple under a different URI emits nothing, and after a push of volume
45 a poll observing 45 emits nothing. -/
theorem pushThenPoll_noDuplicate_witness :
    (pollGroupStep 3 (onPushTrack sampleHealth track1).1
      obsSameTuple).emitted.track = none ∧
    (pollGroupStep 3 (onPushVolume sampleHealth 45).1
      obsVolumeOnly).emitted.volume = none :=
  ⟨(pushThenPoll_noDuplicate 3 sampleHealth obsSameTuple).1 track1 track1b
      rfl (by decide),
   (pushThenPoll_noDuplicate 3 sampleHealth obsVolumeOnly).2.1 45 rfl⟩

end MMMSonos
